import Mathlib

/-!
Shallow embedding of the REGoth-bs character locomotion and physics core
(src/components/CharacterAI.cpp) together with the world name lookup
(GameWorld::findObjectByName), for checking the natural-language
specification of this subsystem against the code.

Modelling conventions:
- engine floats are idealised as rationals;
- the visual/animation port, the character controller and the engine
  vector math are external collaborators and enter as explicit data
  (function-valued fields of an environment record);
- side effects (playing a clip, moving the controller) become explicit
  outputs of the embedded functions.
-/

namespace REGoth

/-- Engine 3-vector (bs::Vector3), components idealised as rationals. -/
structure Vec3 where
  x : ℚ
  y : ℚ
  z : ℚ
deriving DecidableEq

/-- The zero vector (bs::Vector3::ZERO). -/
def Vec3.zero : Vec3 := ⟨0, 0, 0⟩

/-- Componentwise sum. -/
def Vec3.add (a b : Vec3) : Vec3 := ⟨a.x + b.x, a.y + b.y, a.z + b.z⟩

/-- Componentwise difference. -/
def Vec3.sub (a b : Vec3) : Vec3 := ⟨a.x - b.x, a.y - b.y, a.z - b.z⟩

/-- Negation, the embedding of the `rootMotion *= -1.0` step. -/
def Vec3.neg (a : Vec3) : Vec3 := ⟨-a.x, -a.y, -a.z⟩

/-- bs::Vector3::squaredLength. -/
def Vec3.squaredLength (a : Vec3) : ℚ := a.x * a.x + a.y * a.y + a.z * a.z

/-- bs::Vector3::squaredDistance: squared length of the difference. -/
def Vec3.squaredDistance (a b : Vec3) : ℚ := Vec3.squaredLength (Vec3.sub a b)

/-- AI::WalkMode (locomotion mode), per the data model: Run, Walk, Sneak. -/
inductive WalkMode
  | Run
  | Walk
  | Sneak
deriving DecidableEq

/-- AI::WeaponMode: None (unarmed) and Fist in the analysed core. -/
inductive WeaponMode
  | None
  | Fist
deriving DecidableEq

/-- TurnDirection: consumed every tick by handleTurning. -/
inductive TurnDirection
  | None
  | Left
  | Right
deriving DecidableEq

/-- TURN_SPEED_NORMAL, declared as 0.05f with doc comment (Radians/Second). -/
def TURN_SPEED_NORMAL : ℚ := 5 / 100

/-- TURN_SPEED_MULTIPLICATOR_WITH_WEAPON, declared 2.0f; the source never
wires it into the turning computation (see the spec Design Notes). -/
def TURN_SPEED_MULTIPLICATOR_WITH_WEAPON : ℚ := 2

/-- DEACTIVATE_PHYSICS_RANGE_METERS = 45.0. -/
def DEACTIVATE_PHYSICS_RANGE_METERS : ℚ := 45

/-- ACTIVATE_PHYSICS_RANGE_METERS = 40.0. -/
def ACTIVATE_PHYSICS_RANGE_METERS : ℚ := 40

/-- FALLING_ACCELERATION_Y = -9.81f (idealised as an exact rational). -/
def FALLING_ACCELERATION_Y : ℚ := -981 / 100

/-- DOWNWARDS_VELOCITY_WHILE_WALKING = -10.0f. -/
def DOWNWARDS_VELOCITY_WHILE_WALKING : ℚ := -10

/-- Modelled from the spec: helper of the Animation Naming Resolver
(animation/StateNaming.hpp, not under src/). Weapon-mode tag used when
composing state-animation names; the unarmed tag is empty. -/
def weaponAniTag : WeaponMode → String
  | WeaponMode.None => ""
  | WeaponMode.Fist => "FIST"

/-- Modelled from the spec: helper of the Animation Naming Resolver
(animation/StateNaming.hpp, not under src/). Locomotion-mode tag used when
composing state-animation names. -/
def walkModeTag : WalkMode → String
  | WalkMode.Run => "RUN"
  | WalkMode.Walk => "WALK"
  | WalkMode.Sneak => "SNEAK"

/-- Modelled from the spec: AnimationState::constructStateAnimationName
(animation/StateNaming.hpp, not under src/) composes weapon mode,
locomotion mode and requested substate into a canonical state-clip name,
for example S_RUNL or S_FISTRUN. -/
def constructStateAnimationName (weapon : WeaponMode) (walk : WalkMode)
    (state : String) : String :=
  "S_" ++ weaponAniTag weapon ++ walkModeTag walk ++ state

/-- Helper for getStateName: drop a leading FIST weapon tag if present. -/
def stripWeaponTagChars : List Char → List Char
  | 'F' :: 'I' :: 'S' :: 'T' :: rest => rest
  | l => l

/-- Modelled from the spec: character-list core of
AnimationState::getStateName. A state clip name has the shape
S_(weapontag)(state); anything else decodes to the empty (unknown) state. -/
def getStateNameChars : List Char → List Char
  | 'S' :: '_' :: rest => stripWeaponTagChars rest
  | _ => []

/-- Modelled from the spec: AnimationState::getStateName
(animation/StateNaming.hpp, not under src/) inverts the naming scheme and
decodes the locomotion state of a playing clip; a name it cannot decode
yields the empty string (unknown state, never an error). -/
def getStateName (animation : String) : String :=
  ⟨getStateNameChars animation.data⟩

/-- Snapshot of the VisualCharacter collaborator (the visual/animation
port) as read by CharacterAI during one call: clip lookup and transition
naming, the currently playing clip, and the per-tick animation flags.
Clips are opaque handles (Nat); a missing clip is none (null handle). -/
structure Visual where
  hasVisual : Bool
  playingAnimationName : String
  findAnimationClip : String → Option Nat
  findAnimationToTransitionTo : String → String
  findAnimationToTransitionTo2 : String → String → String
  isAnimationPlaying : Nat → Bool
  isPlayingAnimationInterruptable : Bool
  isPlayingIdleAnimation : Bool
  isPlayingFlyingAnimation : Bool
  frameRootMotion : Vec3

/-- Result of bs::CCharacterController::move: the displacement the engine
actually applied to the scene object and the Down collision flag. -/
structure MoveOutcome where
  displacement : Vec3
  collidedDown : Bool
deriving DecidableEq

/-- Per-tick environment of CharacterAI::fixedUpdate: the visual port
snapshot, gTime().getFixedFrameDelta(), the main-camera position, the
engine rotation applied to root motion (rotation by the scene-object
orientation) and the character-controller move. -/
structure TickEnv where
  visual : Visual
  fixedFrameDelta : ℚ
  cameraPosition : Vec3
  rotateByCharacterRotation : Vec3 → Vec3
  controllerMove : Vec3 → MoveOutcome

/-- The state CharacterAI owns, plus the parts of the scene-object
transform the analysed code reads or writes: position, the accumulated
rotation about the vertical axis (SO rotate about UNIT_Y), and the
forward vector (SO setForward). -/
structure CharacterState where
  weaponMode : WeaponMode
  walkMode : WalkMode
  turnDirection : TurnDirection
  isPhysicsActive : Bool
  isInAir : Bool
  isStandingOnSolidGround : Bool
  fallingVelocity : ℚ
  position : Vec3
  rotationAboutY : ℚ
  forwardVec : Vec3
deriving DecidableEq

/-- CharacterAI::shouldDisablePhysics: camera further than the
deactivation range (compared on squared distances). -/
def shouldDisablePhysics (cameraPosition soPosition : Vec3) : Bool :=
  decide (Vec3.squaredDistance cameraPosition soPosition >
    DEACTIVATE_PHYSICS_RANGE_METERS * DEACTIVATE_PHYSICS_RANGE_METERS)

/-- CharacterAI::shouldEnablePhysics: camera closer than the activation
range (compared on squared distances). -/
def shouldEnablePhysics (cameraPosition soPosition : Vec3) : Bool :=
  decide (Vec3.squaredDistance cameraPosition soPosition <
    ACTIVATE_PHYSICS_RANGE_METERS * ACTIVATE_PHYSICS_RANGE_METERS)

/-- CharacterAI::handlePhysicsActivation: the hysteresis step on the
activation flag, evaluated once per simulation tick. -/
def handlePhysicsActivation (cameraPosition soPosition : Vec3)
    (isPhysicsActive : Bool) : Bool :=
  if isPhysicsActive then
    if shouldDisablePhysics cameraPosition soPosition then false
    else isPhysicsActive
  else
    if shouldEnablePhysics cameraPosition soPosition then true
    else isPhysicsActive

/-- CharacterAI::isStanding: the decoded current state is steady running
or steady walking. -/
def isStanding (v : Visual) : Bool :=
  let currentState := getStateName v.playingAnimationName
  if currentState == "RUN" then true
  else if currentState == "WALK" then true
  else false

/-- CharacterAI::isStateSwitchAllowed: re-reads the playing clip; nothing
playing allows the switch, an undecodable clip name forbids it, otherwise
the playing clip must be interruptible. -/
def isStateSwitchAllowed (v : Visual) : Bool :=
  let playingAnim := v.playingAnimationName
  if playingAnim == "" then true
  else
    let state := getStateName playingAnim
    if state == "" then false
    else if !v.isPlayingAnimationInterruptable then false
    else true

/-- CharacterAI::isTurningAllowed: the source always permits turning. -/
def isTurningAllowed : Bool := true

/-- CharacterAI::tryPlayTransitionAnimationTo. Returns the success flag
together with the clip handed to playAnimationClip, if any (none means no
play command was issued). -/
def tryPlayTransitionAnimationTo (v : Visual) (anim : String) :
    Bool × Option Nat :=
  if !v.hasVisual then (false, none)
  else
    let clipPlayingNow := v.findAnimationClip v.playingAnimationName
    let clip0 := v.findAnimationClip (v.findAnimationToTransitionTo anim)
    if clip0 = clipPlayingNow then (true, none)
    else
      let clip :=
        if clip0.isNone && isStanding v then
          v.findAnimationClip (v.findAnimationToTransitionTo2 "S_STAND" anim)
        else clip0
      match clip with
      | none => (false, none)
      | some c =>
        if v.isAnimationPlaying c then (true, none) else (true, some c)

/-- The clip the transition request for anim finally resolves to,
including the stand-root fallback used while standing. -/
def resolvedTargetClip (v : Visual) (anim : String) : Option Nat :=
  let clip0 := v.findAnimationClip (v.findAnimationToTransitionTo anim)
  if clip0.isNone && isStanding v then
    v.findAnimationClip (v.findAnimationToTransitionTo2 "S_STAND" anim)
  else clip0

/-- CharacterAI::doesStateExist for the current mode combination. -/
def doesStateExist (v : Visual) (st : CharacterState) (state : String) :
    Bool :=
  (v.findAnimationClip
    (constructStateAnimationName st.weaponMode st.walkMode state)).isSome

/-- CharacterAI::tryTransitionToState. -/
def tryTransitionToState (v : Visual) (st : CharacterState)
    (state : String) : Bool × Option Nat :=
  if !isStateSwitchAllowed v then (false, none)
  else
    tryPlayTransitionAnimationTo v
      (constructStateAnimationName st.weaponMode st.walkMode state)

/-- CharacterAI::goBackward: a dedicated BL state if the resolver finds
one, otherwise the one-shot T_JUMPB transition. -/
def goBackward (v : Visual) (st : CharacterState) : Bool × Option Nat :=
  if doesStateExist v st "BL" then tryTransitionToState v st "BL"
  else
    if !isStateSwitchAllowed v then (false, none)
    else tryPlayTransitionAnimationTo v "T_JUMPB"

/-- CharacterAI::jump: rejected when a state switch is disallowed or the
character is airborne, otherwise the one-shot S_JUMP transition. -/
def jump (v : Visual) (st : CharacterState) : Bool × Option Nat :=
  if !isStateSwitchAllowed v then (false, none)
  else if st.isInAir then (false, none)
  else tryPlayTransitionAnimationTo v "S_JUMP"

/-- CharacterAI::changeWalkMode: plays the idle clip of the target mode
combination before committing; commits only on success. -/
def changeWalkMode (v : Visual) (st : CharacterState)
    (walkMode : WalkMode) : CharacterState × Bool :=
  let stateTarget := constructStateAnimationName st.weaponMode walkMode ""
  let wasAllowed := (tryPlayTransitionAnimationTo v stateTarget).1
  (if wasAllowed then { st with walkMode := walkMode } else st, wasAllowed)

/-- CharacterAI::changeWeaponMode: without a visual the target mode is
adopted unconditionally with success; otherwise the idle clip of the
target combination is tried and, failing that, a last-resort raw clip
lookup is played and the mode committed, while the original (failed)
flag is still returned. -/
def changeWeaponMode (v : Visual) (st : CharacterState)
    (mode : WeaponMode) : CharacterState × Bool :=
  if !v.hasVisual then ({ st with weaponMode := mode }, true)
  else
    let stateTarget := constructStateAnimationName mode st.walkMode ""
    let wasAllowed := (tryPlayTransitionAnimationTo v stateTarget).1
    let st1 := if wasAllowed then { st with weaponMode := mode } else st
    let st2 :=
      if !wasAllowed then
        match v.findAnimationClip stateTarget with
        | some _ => { st1 with weaponMode := mode }
        | none => st1
      else st1
    (st2, wasAllowed)

/-- CharacterAI::handleTurning: the per-tick turn resolution. The frame
turn is a constant angle per direction; the source never multiplies it by
the frame delta. -/
def handleTurning (st : CharacterState) : CharacterState :=
  let frameTurn : ℚ :=
    match st.turnDirection with
    | TurnDirection.None => 0
    | TurnDirection.Left => -TURN_SPEED_NORMAL
    | TurnDirection.Right => TURN_SPEED_NORMAL
  if |frameTurn| > 1 / 10000 then
    { st with rotationAboutY := st.rotationAboutY + frameTurn }
  else st

/-- CharacterAI::handleFallingAndFlying: the vertical-dynamics update. -/
def handleFallingAndFlying (env : TickEnv) (st : CharacterState) :
    CharacterState :=
  if env.visual.isPlayingFlyingAnimation then
    { st with isInAir := true, fallingVelocity := 0 }
  else if !st.isInAir then
    { st with fallingVelocity := 0 }
  else
    { st with fallingVelocity :=
        st.fallingVelocity + FALLING_ACCELERATION_Y * env.fixedFrameDelta }

/-- CharacterAI::needsToUpdatePhysics: move only when airborne, or not on
solid ground, or the root motion is non-zero. -/
def needsToUpdatePhysics (st : CharacterState) (rootMotion : Vec3) : Bool :=
  if st.isInAir then true
  else if !st.isStandingOnSolidGround then true
  else decide (Vec3.squaredLength rootMotion > 0)

/-- The root motion computed in CharacterAI::fixedUpdate: zero while an
idle animation plays, otherwise the frame root motion rotated by the
scene-object rotation and sign-inverted. -/
def rootMotionOf (env : TickEnv) : Vec3 :=
  if !env.visual.isPlayingIdleAnimation then
    Vec3.neg (env.rotateByCharacterRotation env.visual.frameRootMotion)
  else Vec3.zero

/-- CharacterAI::fixedUpdate: one simulation tick. Returns the new state
together with a flag recording whether the controller move was issued. -/
def fixedUpdate (env : TickEnv) (st0 : CharacterState) :
    CharacterState × Bool :=
  let active :=
    handlePhysicsActivation env.cameraPosition st0.position
      st0.isPhysicsActive
  let st := { st0 with isPhysicsActive := active }
  if !active then (st, false)
  else
    let st := if isTurningAllowed then handleTurning st else st
    let st := handleFallingAndFlying env st
    let rootMotion := rootMotionOf env
    if needsToUpdatePhysics st rootMotion then
      let frameDelta := env.fixedFrameDelta
      let velocity := rootMotion
      let velocity :=
        if st.isInAir then
          { velocity with y := velocity.y + st.fallingVelocity * frameDelta }
        else
          { velocity with y :=
              velocity.y + DOWNWARDS_VELOCITY_WHILE_WALKING * frameDelta }
      let outcome := env.controllerMove velocity
      ({ st with
          position := Vec3.add st.position outcome.displacement,
          isStandingOnSolidGround := outcome.collidedDown,
          isInAir := !outcome.collidedDown }, true)
    else (st, false)

/-- A scene-object handle target as seen through the world name index:
whether the handle target was destroyed, and its transform data used by
teleport. -/
structure WorldObject where
  isDestroyed : Bool
  pos : Vec3
  forward : Vec3
deriving DecidableEq

/-- The GameWorld collaborator state used by findObjectByName: the
name-to-object cache and the scene-graph child lookup. -/
structure GameWorld where
  cache : List (String × WorldObject)
  findChild : String → Option WorldObject

/-- First-match association-list lookup (the map find). -/
def lookupAssoc (l : List (String × WorldObject)) (name : String) :
    Option WorldObject :=
  match l with
  | [] => none
  | (k, v) :: rest => if k == name then some v else lookupAssoc rest name

/-- GameWorld::findObjectByName: serve live cache hits; on a destroyed
cache entry or a cache miss fall back to findChild and cache a find. -/
def findObjectByName (w : GameWorld) (name : String) :
    Option WorldObject × GameWorld :=
  let fallback : Option WorldObject × GameWorld :=
    match w.findChild name with
    | some so => (some so, { w with cache := (name, so) :: w.cache })
    | none => (none, w)
  match lookupAssoc w.cache name with
  | some h => if !h.isDestroyed then (some h, w) else fallback
  | none => fallback

/-- CharacterAI::teleport: look up the waypoint by name; on a miss log a
warning and no-op (never throw); on a hit set the position and set the
forward vector to the target forward flattened to the horizontal plane
and normalized by the engine vector math (vecNormalize stands for
bs::Vector3::normalize, an external collaborator). -/
def teleport (vecNormalize : Vec3 → Vec3) (w : GameWorld)
    (st : CharacterState) (waypoint : String) :
    Except String (GameWorld × CharacterState) :=
  match findObjectByName w waypoint with
  | (none, wAfter) => Except.ok (wAfter, st)
  | (some so, wAfter) =>
    let forwardCenterd := Vec3.mk so.forward.x 0 so.forward.z
    Except.ok (wAfter,
      { st with position := so.pos,
                forwardVec := vecNormalize forwardCenterd })

/-! Helper lemmas shared across the claim theorems. -/

/-- A vector with positive squared length is not the zero vector, and
conversely: the squared length of a non-zero vector is positive. -/
lemma Vec3.squaredLength_pos (v : Vec3) (h : v ≠ Vec3.zero) :
    0 < Vec3.squaredLength v := by
  rcases v with ⟨x, y, z⟩
  by_contra hle
  push_neg at hle
  simp only [Vec3.squaredLength] at hle
  have hx : x * x = 0 := by nlinarith [mul_self_nonneg x, mul_self_nonneg y, mul_self_nonneg z]
  have hy : y * y = 0 := by nlinarith [mul_self_nonneg x, mul_self_nonneg y, mul_self_nonneg z]
  have hz : z * z = 0 := by nlinarith [mul_self_nonneg x, mul_self_nonneg y, mul_self_nonneg z]
  exact h (by simp [Vec3.zero, mul_self_eq_zero.mp hx, mul_self_eq_zero.mp hy,
    mul_self_eq_zero.mp hz])

/-- While active, a tick whose squared camera distance stays at or below
the deactivation range keeps physics active. -/
lemma handlePhysicsActivation_stays_active (c s : Vec3)
    (h : Vec3.squaredDistance c s ≤
      DEACTIVATE_PHYSICS_RANGE_METERS * DEACTIVATE_PHYSICS_RANGE_METERS) :
    handlePhysicsActivation c s true = true := by
  simp [handlePhysicsActivation, shouldDisablePhysics, not_lt.mpr h]

/-- While inactive, a tick whose squared camera distance stays at or
above the activation range keeps physics inactive. -/
lemma handlePhysicsActivation_stays_inactive (c s : Vec3)
    (h : ACTIVATE_PHYSICS_RANGE_METERS * ACTIVATE_PHYSICS_RANGE_METERS ≤
      Vec3.squaredDistance c s) :
    handlePhysicsActivation c s false = false := by
  simp [handlePhysicsActivation, shouldEnablePhysics, not_lt.mpr h]

/-- Folding the activation step over a list of camera and character
position pairs, starting active. -/
def foldActivation (ps : List (Vec3 × Vec3)) (a : Bool) : Bool :=
  ps.foldl (fun acc p => handlePhysicsActivation p.1 p.2 acc) a

/-- Every transition attempt either fails playing nothing or succeeds. -/
lemma tryPlayTransitionAnimationTo_cases (v : Visual) (anim : String) :
    tryPlayTransitionAnimationTo v anim = (false, none) ∨
      (tryPlayTransitionAnimationTo v anim).1 = true := by
  unfold tryPlayTransitionAnimationTo
  dsimp only
  repeat' split
  all_goals first
    | exact Or.inl rfl
    | exact Or.inr rfl

/-- A failed transition attempt issues no play command. -/
lemma tryPlayTransitionAnimationTo_false_none (v : Visual) (anim : String)
    (h : (tryPlayTransitionAnimationTo v anim).1 = false) :
    (tryPlayTransitionAnimationTo v anim).2 = none := by
  rcases tryPlayTransitionAnimationTo_cases v anim with hc | hc
  · rw [hc]
  · rw [hc] at h
    simp at h

/-! Concrete states and environments used by counterexamples and
witnesses. -/

/-- A plain grounded character in the default modes. -/
def st0 : CharacterState :=
  { weaponMode := WeaponMode.None
    walkMode := WalkMode.Run
    turnDirection := TurnDirection.None
    isPhysicsActive := true
    isInAir := false
    isStandingOnSolidGround := true
    fallingVelocity := 0
    position := Vec3.zero
    rotationAboutY := 0
    forwardVec := ⟨0, 0, 1⟩ }

/-- A visual port with no model assigned and nothing playing. -/
def visBase : Visual :=
  { hasVisual := false
    playingAnimationName := ""
    findAnimationClip := fun _ => none
    findAnimationToTransitionTo := fun s => s
    findAnimationToTransitionTo2 := fun _ s => s
    isAnimationPlaying := fun _ => false
    isPlayingAnimationInterruptable := true
    isPlayingIdleAnimation := true
    isPlayingFlyingAnimation := false
    frameRootMotion := Vec3.zero }

/-- A quiet tick: camera on top of the character, idle animation, a
tenth of a second fixed delta, trivial engine callbacks. -/
def tickEnv0 : TickEnv :=
  { visual := visBase
    fixedFrameDelta := 1 / 10
    cameraPosition := Vec3.zero
    rotateByCharacterRotation := fun v => v
    controllerMove := fun _ => { displacement := Vec3.zero, collidedDown := true } }

/-- The quiet tick with an authoritative flight animation. -/
def envFlying : TickEnv :=
  { tickEnv0 with visual := { visBase with isPlayingFlyingAnimation := true } }

/-- An airborne character falling at 5 m/s (signed velocity 5 before the
gravity step in the model; the sign convention follows the source). -/
def stAirborne : CharacterState := { st0 with isInAir := true, fallingVelocity := 5 }

/-- C3: starting Active, while the camera-character distance never
exceeds the deactivation threshold the activation state stays Active
after every tick, and starting Inactive, while the distance never drops
below the activation threshold it stays Inactive: no flicker inside the
hysteresis band. Stated on squared distances, the exact quantity the
source compares. -/
theorem physicsActivation_no_flicker :
    ∀ ps : List (Vec3 × Vec3),
      ((∀ p ∈ ps, Vec3.squaredDistance p.1 p.2 ≤
          DEACTIVATE_PHYSICS_RANGE_METERS * DEACTIVATE_PHYSICS_RANGE_METERS) →
        foldActivation ps true = true) ∧
      ((∀ p ∈ ps, ACTIVATE_PHYSICS_RANGE_METERS * ACTIVATE_PHYSICS_RANGE_METERS ≤
          Vec3.squaredDistance p.1 p.2) →
        foldActivation ps false = false) := by
  intro ps
  induction ps with
  | nil => exact ⟨fun _ => rfl, fun _ => rfl⟩
  | cons p rest ih =>
    constructor
    · intro hall
      have hstep := handlePhysicsActivation_stays_active p.1 p.2 (hall p (by simp))
      unfold foldActivation
      simp only [List.foldl_cons]
      rw [hstep]
      have htail := ih.1 (fun q hq => hall q (List.mem_cons_of_mem p hq))
      unfold foldActivation at htail
      exact htail
    · intro hall
      have hstep := handlePhysicsActivation_stays_inactive p.1 p.2 (hall p (by simp))
      unfold foldActivation
      simp only [List.foldl_cons]
      rw [hstep]
      have htail := ih.2 (fun q hq => hall q (List.mem_cons_of_mem p hq))
      unfold foldActivation at htail
      exact htail

/-- Witness for C3 at concrete distance sequences inside the band. -/
theorem physicsActivation_no_flicker_witness :
    foldActivation [(Vec3.zero, Vec3.zero), (⟨44, 0, 0⟩, Vec3.zero)] true = true ∧
    foldActivation [(⟨41, 0, 0⟩, Vec3.zero), (⟨100, 0, 0⟩, Vec3.zero)] false = false :=
  ⟨(physicsActivation_no_flicker _).1 (by
      intro p hp
      fin_cases hp <;>
        norm_num [Vec3.squaredDistance, Vec3.sub, Vec3.squaredLength, Vec3.zero,
          DEACTIVATE_PHYSICS_RANGE_METERS]),
   (physicsActivation_no_flicker _).2 (by
      intro p hp
      fin_cases hp <;>
        norm_num [Vec3.squaredDistance, Vec3.sub, Vec3.squaredLength, Vec3.zero,
          ACTIVATE_PHYSICS_RANGE_METERS])⟩

/-- C5 counterexample: with a flight animation authoritative the
character is airborne, yet one vertical-dynamics update resets the fall
velocity to 0 instead of adding gravityAcceleration times the tick
delta, refuting the claim as stated. -/
theorem handleFallingAndFlying_flying_breaks_euler :
    stAirborne.isInAir = true ∧
    (handleFallingAndFlying envFlying stAirborne).fallingVelocity ≠
      stAirborne.fallingVelocity +
        FALLING_ACCELERATION_Y * envFlying.fixedFrameDelta := by
  refine ⟨rfl, ?_⟩
  have h1 : (handleFallingAndFlying envFlying stAirborne).fallingVelocity = 0 := rfl
  have h2 : stAirborne.fallingVelocity = 5 := rfl
  have h3 : envFlying.fixedFrameDelta = 1 / 10 := rfl
  rw [h1, h2, h3]
  norm_num [FALLING_ACCELERATION_Y]

/-- C5 (amended): when no flight animation is authoritative, an airborne
tick performs the exact explicit Euler step on the fall velocity, and a
grounded tick resets the fall velocity to 0. -/
theorem handleFallingAndFlying_euler_step :
    ∀ (env : TickEnv) (st : CharacterState),
      (env.visual.isPlayingFlyingAnimation = false → st.isInAir = true →
        (handleFallingAndFlying env st).fallingVelocity =
          st.fallingVelocity + FALLING_ACCELERATION_Y * env.fixedFrameDelta) ∧
      (st.isInAir = false →
        (handleFallingAndFlying env st).fallingVelocity = 0) := by
  intro env st
  constructor
  · intro hfly hair
    simp [handleFallingAndFlying, hfly, hair]
  · intro hair
    unfold handleFallingAndFlying
    split
    · rfl
    · rw [hair]
      rfl

/-- Witness for C5 at a concrete airborne tick and a grounded tick. -/
theorem handleFallingAndFlying_euler_step_witness :
    (handleFallingAndFlying tickEnv0 stAirborne).fallingVelocity =
      stAirborne.fallingVelocity +
        FALLING_ACCELERATION_Y * tickEnv0.fixedFrameDelta ∧
    (handleFallingAndFlying tickEnv0 st0).fallingVelocity = 0 :=
  ⟨(handleFallingAndFlying_euler_step tickEnv0 stAirborne).1 rfl rfl,
   (handleFallingAndFlying_euler_step tickEnv0 st0).2 rfl⟩

/-! Small evaluation and preservation lemmas about the tick helpers. -/

/-- handleTurning never changes the airborne flag. -/
lemma handleTurning_isInAir (st : CharacterState) :
    (handleTurning st).isInAir = st.isInAir := by
  unfold handleTurning
  split <;> (dsimp only; split <;> rfl)

/-- handleTurning never changes the solid-ground flag. -/
lemma handleTurning_solid (st : CharacterState) :
    (handleTurning st).isStandingOnSolidGround = st.isStandingOnSolidGround := by
  unfold handleTurning
  split <;> (dsimp only; split <;> rfl)

/-- handleTurning never changes the position. -/
lemma handleTurning_position (st : CharacterState) :
    (handleTurning st).position = st.position := by
  unfold handleTurning
  split <;> (dsimp only; split <;> rfl)

/-- With the turn intent Right the tick turns by exactly
TURN_SPEED_NORMAL, independently of any frame delta. -/
lemma handleTurning_right (st : CharacterState)
    (h : st.turnDirection = TurnDirection.Right) :
    handleTurning st =
      { st with rotationAboutY := st.rotationAboutY + TURN_SPEED_NORMAL } := by
  unfold handleTurning
  rw [h]
  dsimp only
  rw [if_pos]
  have habs : |TURN_SPEED_NORMAL| = TURN_SPEED_NORMAL :=
    abs_of_pos (by norm_num [TURN_SPEED_NORMAL])
  rw [habs]
  norm_num [TURN_SPEED_NORMAL]

/-- The vertical-dynamics update never changes the position. -/
lemma handleFallingAndFlying_position (env : TickEnv) (st : CharacterState) :
    (handleFallingAndFlying env st).position = st.position := by
  unfold handleFallingAndFlying
  repeat' split
  all_goals rfl

/-- The vertical-dynamics update never changes the rotation. -/
lemma handleFallingAndFlying_rotationAboutY (env : TickEnv) (st : CharacterState) :
    (handleFallingAndFlying env st).rotationAboutY = st.rotationAboutY := by
  unfold handleFallingAndFlying
  repeat' split
  all_goals rfl

/-- The vertical-dynamics update never changes the solid-ground flag. -/
lemma handleFallingAndFlying_solid (env : TickEnv) (st : CharacterState) :
    (handleFallingAndFlying env st).isStandingOnSolidGround =
      st.isStandingOnSolidGround := by
  unfold handleFallingAndFlying
  repeat' split
  all_goals rfl

/-- Without a flight animation, the vertical-dynamics update leaves the
airborne flag as it was. -/
lemma handleFallingAndFlying_isInAir_of_not_flying (env : TickEnv)
    (st : CharacterState) (h : env.visual.isPlayingFlyingAnimation = false) :
    (handleFallingAndFlying env st).isInAir = st.isInAir := by
  unfold handleFallingAndFlying
  repeat' split
  all_goals simp_all

/-- A flight animation forces the airborne flag. -/
lemma handleFallingAndFlying_isInAir_of_flying (env : TickEnv)
    (st : CharacterState) (h : env.visual.isPlayingFlyingAnimation = true) :
    (handleFallingAndFlying env st).isInAir = true := by
  unfold handleFallingAndFlying
  rw [h]
  rfl

/-- An airborne character stays airborne through the vertical-dynamics
update. -/
lemma handleFallingAndFlying_isInAir_true (env : TickEnv)
    (st : CharacterState) (h : st.isInAir = true) :
    (handleFallingAndFlying env st).isInAir = true := by
  unfold handleFallingAndFlying
  split
  · rfl
  · simp [h]

/-- needsToUpdatePhysics is false for a grounded character on solid
ground with zero root motion. -/
lemma needsToUpdatePhysics_false (st : CharacterState) (rm : Vec3)
    (h1 : st.isInAir = false) (h2 : st.isStandingOnSolidGround = true)
    (h3 : rm = Vec3.zero) :
    needsToUpdatePhysics st rm = false := by
  unfold needsToUpdatePhysics
  rw [h1, h2, h3]
  simp [Vec3.squaredLength, Vec3.zero]

/-- Airborne forces a physics move. -/
lemma needsToUpdatePhysics_of_air (st : CharacterState) (rm : Vec3)
    (h : st.isInAir = true) : needsToUpdatePhysics st rm = true := by
  unfold needsToUpdatePhysics
  rw [h]
  rfl

/-- Not standing on solid ground forces a physics move. -/
lemma needsToUpdatePhysics_of_not_solid (st : CharacterState) (rm : Vec3)
    (h : st.isStandingOnSolidGround = false) :
    needsToUpdatePhysics st rm = true := by
  unfold needsToUpdatePhysics
  cases hair : st.isInAir <;> simp [hair, h]

/-- Non-zero root motion forces a physics move. -/
lemma needsToUpdatePhysics_of_rootMotion (st : CharacterState) (rm : Vec3)
    (h : rm ≠ Vec3.zero) : needsToUpdatePhysics st rm = true := by
  unfold needsToUpdatePhysics
  cases hair : st.isInAir <;> cases hsolid : st.isStandingOnSolidGround <;>
    simp [hair, hsolid]
  exact Vec3.squaredLength_pos rm h

/-- A tick with physics inactive after the gate is a no-op apart from
recording the gate result: no controller move. -/
lemma fixedUpdate_inactive (env : TickEnv) (st : CharacterState)
    (hgate : handlePhysicsActivation env.cameraPosition st.position
      st.isPhysicsActive = false) :
    fixedUpdate env st = ({ st with isPhysicsActive := false }, false) := by
  simp [fixedUpdate, hgate]

/-- The shape of an active tick that short-circuits the physics move. -/
lemma fixedUpdate_no_move (env : TickEnv) (st : CharacterState)
    (hgate : handlePhysicsActivation env.cameraPosition st.position
      st.isPhysicsActive = true)
    (hneed : needsToUpdatePhysics
      (handleFallingAndFlying env
        (handleTurning { st with isPhysicsActive := true }))
      (rootMotionOf env) = false) :
    fixedUpdate env st =
      (handleFallingAndFlying env
        (handleTurning { st with isPhysicsActive := true }), false) := by
  simp [fixedUpdate, isTurningAllowed, hgate, hneed]

/-- An active tick that needs a physics update issues the move. -/
lemma fixedUpdate_move (env : TickEnv) (st : CharacterState)
    (hgate : handlePhysicsActivation env.cameraPosition st.position
      st.isPhysicsActive = true)
    (hneed : needsToUpdatePhysics
      (handleFallingAndFlying env
        (handleTurning { st with isPhysicsActive := true }))
      (rootMotionOf env) = true) :
    (fixedUpdate env st).2 = true := by
  simp [fixedUpdate, isTurningAllowed, hgate, hneed]

/-- A grounded character with a Right turn intent. -/
def stTurnRight : CharacterState := { st0 with turnDirection := TurnDirection.Right }

/-- The quiet tick with a fixed frame delta of one full second. -/
def envDt1 : TickEnv := { tickEnv0 with fixedFrameDelta := 1 }

/-- An airborne character whose physics is inactive. -/
def stInactiveAir : CharacterState :=
  { st0 with isPhysicsActive := false, isInAir := true }

/-- The quiet tick with the camera 50 m away (outside both ranges). -/
def envFar : TickEnv := { tickEnv0 with cameraPosition := ⟨50, 0, 0⟩ }

/-- An active tick with turn intent Right that short-circuits the move
applies exactly TURN_SPEED_NORMAL to the rotation, whatever the frame
delta of the environment is. -/
lemma fixedUpdate_quiet_right_turn (env : TickEnv) (st : CharacterState)
    (hgate : handlePhysicsActivation env.cameraPosition st.position
      st.isPhysicsActive = true)
    (hfly : env.visual.isPlayingFlyingAnimation = false)
    (hidle : env.visual.isPlayingIdleAnimation = true)
    (hair : st.isInAir = false) (hsolid : st.isStandingOnSolidGround = true)
    (hdir : st.turnDirection = TurnDirection.Right) :
    (fixedUpdate env st).1.rotationAboutY =
      st.rotationAboutY + TURN_SPEED_NORMAL := by
  have hrm : rootMotionOf env = Vec3.zero := by
    unfold rootMotionOf
    rw [hidle]
    rfl
  have hmidair :
      (handleFallingAndFlying env
        (handleTurning { st with isPhysicsActive := true })).isInAir = false := by
    rw [handleFallingAndFlying_isInAir_of_not_flying _ _ hfly,
      handleTurning_isInAir]
    exact hair
  have hmidsolid :
      (handleFallingAndFlying env
        (handleTurning { st with isPhysicsActive := true })).isStandingOnSolidGround
        = true := by
    rw [handleFallingAndFlying_solid, handleTurning_solid]
    exact hsolid
  have hneed := needsToUpdatePhysics_false _ _ hmidair hmidsolid hrm
  rw [fixedUpdate_no_move env st hgate hneed]
  show (handleFallingAndFlying env
    (handleTurning { st with isPhysicsActive := true })).rotationAboutY =
      st.rotationAboutY + TURN_SPEED_NORMAL
  rw [handleFallingAndFlying_rotationAboutY,
    handleTurning_right _ (by simpa using hdir)]

/-- C2 (code-bug evaluation): the per-tick turn step rotates by exactly
TURN_SPEED_NORMAL radians regardless of the fixed frame delta; ticks with
deltas of a tenth of a second and of one second rotate by the same angle,
and that angle differs from turnSpeed times tickDelta, the quantity the
claim (and the Radians/Second documentation of the constant in the
source) prescribes. -/
theorem turning_ignores_tick_delta :
    tickEnv0.fixedFrameDelta = 1 / 10 ∧
    envDt1.fixedFrameDelta = 1 ∧
    (fixedUpdate tickEnv0 stTurnRight).1.rotationAboutY =
      stTurnRight.rotationAboutY + TURN_SPEED_NORMAL ∧
    (fixedUpdate envDt1 stTurnRight).1.rotationAboutY =
      stTurnRight.rotationAboutY + TURN_SPEED_NORMAL ∧
    TURN_SPEED_NORMAL ≠ TURN_SPEED_NORMAL * tickEnv0.fixedFrameDelta := by
  refine ⟨rfl, rfl, ?_, ?_, ?_⟩
  · exact fixedUpdate_quiet_right_turn tickEnv0 stTurnRight
      (handlePhysicsActivation_stays_active _ _ (by
        norm_num [tickEnv0, stTurnRight, st0, Vec3.squaredDistance, Vec3.sub,
          Vec3.squaredLength, Vec3.zero, DEACTIVATE_PHYSICS_RANGE_METERS]))
      rfl rfl rfl rfl rfl
  · exact fixedUpdate_quiet_right_turn envDt1 stTurnRight
      (handlePhysicsActivation_stays_active _ _ (by
        norm_num [envDt1, tickEnv0, stTurnRight, st0, Vec3.squaredDistance,
          Vec3.sub, Vec3.squaredLength, Vec3.zero,
          DEACTIVATE_PHYSICS_RANGE_METERS]))
      rfl rfl rfl rfl rfl
  · have hdt : tickEnv0.fixedFrameDelta = 1 / 10 := rfl
    rw [hdt]
    norm_num [TURN_SPEED_NORMAL]

/-- C6 counterexample: two concrete ticks refute the claim as stated.
First, with physics inactive an airborne character gets no controller
move. Second, with physics active, a grounded character on solid ground
with zero root motion does get a controller move when a flight animation
is authoritative (it forces the airborne flag before the move check). -/
theorem fixedUpdate_gate_counterexample :
    (stInactiveAir.isInAir = true ∧
      (fixedUpdate envFar stInactiveAir).2 = false) ∧
    (st0.isInAir = false ∧ st0.isStandingOnSolidGround = true ∧
      rootMotionOf envFlying = Vec3.zero ∧
      (fixedUpdate envFlying st0).2 = true) := by
  constructor
  · refine ⟨rfl, ?_⟩
    have hgate : handlePhysicsActivation envFar.cameraPosition
        stInactiveAir.position stInactiveAir.isPhysicsActive = false :=
      handlePhysicsActivation_stays_inactive _ _ (by
        norm_num [envFar, tickEnv0, stInactiveAir, st0, Vec3.squaredDistance,
          Vec3.sub, Vec3.squaredLength, Vec3.zero,
          ACTIVATE_PHYSICS_RANGE_METERS])
    rw [fixedUpdate_inactive envFar stInactiveAir hgate]
  · refine ⟨rfl, rfl, rfl, ?_⟩
    have hgate : handlePhysicsActivation envFlying.cameraPosition
        st0.position st0.isPhysicsActive = true :=
      handlePhysicsActivation_stays_active _ _ (by
        norm_num [envFlying, tickEnv0, st0, Vec3.squaredDistance, Vec3.sub,
          Vec3.squaredLength, Vec3.zero, DEACTIVATE_PHYSICS_RANGE_METERS])
    exact fixedUpdate_move envFlying st0 hgate
      (needsToUpdatePhysics_of_air _ _
        (handleFallingAndFlying_isInAir_of_flying _ _ rfl))

/-- C6 (amended): on a tick with physics active after the activation
gate, if the character is not airborne, stands on solid ground, the
computed root motion is zero and no flight animation is authoritative
(a flight animation forces the airborne flag before the check), then no
controller move is issued and the position is unchanged; conversely the
move is performed whenever the character is airborne, or not on solid
ground, or the root motion is non-zero. -/
theorem fixedUpdate_move_iff_needed :
    ∀ (env : TickEnv) (st : CharacterState),
      handlePhysicsActivation env.cameraPosition st.position
        st.isPhysicsActive = true →
      ((st.isInAir = false → st.isStandingOnSolidGround = true →
        rootMotionOf env = Vec3.zero →
        env.visual.isPlayingFlyingAnimation = false →
        (fixedUpdate env st).2 = false ∧
          (fixedUpdate env st).1.position = st.position) ∧
       ((st.isInAir = true ∨ st.isStandingOnSolidGround = false ∨
          rootMotionOf env ≠ Vec3.zero) →
        (fixedUpdate env st).2 = true)) := by
  intro env st hgate
  constructor
  · intro hair hsolid hrm hfly
    have hmidair :
        (handleFallingAndFlying env
          (handleTurning { st with isPhysicsActive := true })).isInAir
          = false := by
      rw [handleFallingAndFlying_isInAir_of_not_flying _ _ hfly,
        handleTurning_isInAir]
      exact hair
    have hmidsolid :
        (handleFallingAndFlying env
          (handleTurning
            { st with isPhysicsActive := true })).isStandingOnSolidGround
          = true := by
      rw [handleFallingAndFlying_solid, handleTurning_solid]
      exact hsolid
    have hneed := needsToUpdatePhysics_false _ _ hmidair hmidsolid hrm
    rw [fixedUpdate_no_move env st hgate hneed]
    refine ⟨rfl, ?_⟩
    show (handleFallingAndFlying env
      (handleTurning { st with isPhysicsActive := true })).position
      = st.position
    rw [handleFallingAndFlying_position, handleTurning_position]
  · intro hdisj
    apply fixedUpdate_move env st hgate
    rcases hdisj with hair | hsolid | hrm
    · exact needsToUpdatePhysics_of_air _ _
        (handleFallingAndFlying_isInAir_true _ _
          (by rw [handleTurning_isInAir]; exact hair))
    · exact needsToUpdatePhysics_of_not_solid _ _
        (by rw [handleFallingAndFlying_solid, handleTurning_solid]; exact hsolid)
    · exact needsToUpdatePhysics_of_rootMotion _ _ hrm

/-- Witness for C6 at the quiet grounded tick. -/
theorem fixedUpdate_move_iff_needed_witness :
    (fixedUpdate tickEnv0 st0).2 = false ∧
      (fixedUpdate tickEnv0 st0).1.position = st0.position :=
  (fixedUpdate_move_iff_needed tickEnv0 st0
    (handlePhysicsActivation_stays_active _ _ (by
      norm_num [tickEnv0, st0, Vec3.squaredDistance, Vec3.sub,
        Vec3.squaredLength, Vec3.zero, DEACTIVATE_PHYSICS_RANGE_METERS]))).1
    rfl rfl rfl rfl

/-- A visual where the idle transition for the fist mode is missing but
the raw fist state clip exists, while a forward run clip is playing. -/
def visFistFallback : Visual :=
  { visBase with
    hasVisual := true
    playingAnimationName := "S_RUNL"
    findAnimationClip := fun s =>
      if s == "S_FISTRUN" then some 7
      else if s == "S_RUNL" then some 2
      else none
    findAnimationToTransitionTo := fun _ => "T_MISSING"
    findAnimationToTransitionTo2 := fun _ _ => "T_MISSING2"
    isAnimationPlaying := fun c => c == 2 }

/-- C1 counterexample: a changeWeaponMode call that returns failure and
nevertheless changes the owned weapon mode, through the last-resort raw
clip fallback, refuting the claim as stated. -/
theorem changeWeaponMode_commits_despite_failure :
    (changeWeaponMode visFistFallback st0 WeaponMode.Fist).2 = false ∧
    st0.weaponMode = WeaponMode.None ∧
    (changeWeaponMode visFistFallback st0 WeaponMode.Fist).1.weaponMode =
      WeaponMode.Fist := by
  refine ⟨rfl, rfl, rfl⟩

/-- C1 (amended): a changeWalkMode call that returns failure leaves the
whole character state unchanged; a changeWeaponMode call that returns
failure leaves the state unchanged when the last-resort raw target-state
clip lookup misses, but commits the requested weapon mode (changing
nothing else) when that lookup hits, despite the failure return. -/
theorem changeMode_failure_state :
    ∀ (v : Visual) (st : CharacterState) (wm : WalkMode) (m : WeaponMode),
      ((changeWalkMode v st wm).2 = false → (changeWalkMode v st wm).1 = st) ∧
      ((changeWeaponMode v st m).2 = false →
        v.findAnimationClip (constructStateAnimationName m st.walkMode "") = none →
        (changeWeaponMode v st m).1 = st) ∧
      ((changeWeaponMode v st m).2 = false →
        ∀ c, v.findAnimationClip (constructStateAnimationName m st.walkMode "")
          = some c →
        (changeWeaponMode v st m).1 = { st with weaponMode := m }) := by
  intro v st wm m
  refine ⟨?_, ?_, ?_⟩
  · intro h
    unfold changeWalkMode at h ⊢
    dsimp only at h ⊢
    simp [h]
  · intro h hclip
    unfold changeWeaponMode at h ⊢
    by_cases hv : v.hasVisual = true
    · simp only [hv, Bool.not_true, Bool.false_eq_true, if_false] at h ⊢
      simp [h, hclip]
    · have hv' : v.hasVisual = false := by simpa using hv
      simp [hv'] at h
  · intro h c hclip
    unfold changeWeaponMode at h ⊢
    by_cases hv : v.hasVisual = true
    · simp only [hv, Bool.not_true, Bool.false_eq_true, if_false] at h ⊢
      simp [h, hclip]
    · have hv' : v.hasVisual = false := by simpa using hv
      simp [hv'] at h

/-- Witness for C1 at the fist-fallback visual: the failed walk-mode
change is a strict no-op and the failed weapon-mode change commits the
mode through the raw clip fallback. -/
theorem changeMode_failure_state_witness :
    (changeWalkMode visFistFallback st0 WalkMode.Walk).1 = st0 ∧
    (changeWeaponMode visFistFallback st0 WeaponMode.Fist).1 =
      { st0 with weaponMode := WeaponMode.Fist } :=
  ⟨(changeMode_failure_state visFistFallback st0 WalkMode.Walk
      WeaponMode.Fist).1 rfl,
   (changeMode_failure_state visFistFallback st0 WalkMode.Walk
      WeaponMode.Fist).2.2 rfl 7 rfl⟩

/-- C7 counterexample: with no visual assigned, changeWalkMode returns
failure and adopts nothing, refuting the claim that both mode-change
operations succeed unconditionally without a visual. -/
theorem changeWalkMode_no_visual_fails :
    visBase.hasVisual = false ∧
    (changeWalkMode visBase st0 WalkMode.Walk).2 = false ∧
    (changeWalkMode visBase st0 WalkMode.Walk).1.walkMode = WalkMode.Run := by
  refine ⟨rfl, rfl, rfl⟩

/-- C7 (amended): with no visual assigned, changeWeaponMode succeeds and
adopts the requested mode unconditionally, while changeWalkMode returns
failure and leaves the state unchanged. -/
theorem changeMode_no_visual :
    ∀ (v : Visual) (st : CharacterState) (m : WeaponMode) (wm : WalkMode),
      v.hasVisual = false →
      changeWeaponMode v st m = ({ st with weaponMode := m }, true) ∧
      changeWalkMode v st wm = (st, false) := by
  intro v st m wm hv
  constructor
  · unfold changeWeaponMode
    simp [hv]
  · unfold changeWalkMode tryPlayTransitionAnimationTo
    simp [hv]

/-- Witness for C7 at the visual-less port. -/
theorem changeMode_no_visual_witness :
    changeWeaponMode visBase st0 WeaponMode.Fist =
      ({ st0 with weaponMode := WeaponMode.Fist }, true) ∧
    changeWalkMode visBase st0 WalkMode.Sneak = (st0, false) :=
  changeMode_no_visual visBase st0 WeaponMode.Fist WalkMode.Sneak rfl

/-- C8 counterexample: with a switch allowed and the character grounded,
a jump request can still fail (here: no visual assigned), playing
nothing, refuting the claim that it otherwise plays the jump clip and
returns success. -/
theorem jump_attempt_can_fail :
    isStateSwitchAllowed visBase = true ∧ st0.isInAir = false ∧
    jump visBase st0 = (false, none) := by
  refine ⟨rfl, rfl, rfl⟩

/-- C8 (amended): a jump request is rejected with no clip played
whenever the character is airborne or a state switch is disallowed;
otherwise it returns the result of attempting the one-shot S_JUMP
transition, which can itself fail, and any failing jump request plays
nothing. -/
theorem jump_gate :
    ∀ (v : Visual) (st : CharacterState),
      ((isStateSwitchAllowed v = false ∨ st.isInAir = true) →
        jump v st = (false, none)) ∧
      (isStateSwitchAllowed v = true → st.isInAir = false →
        jump v st = tryPlayTransitionAnimationTo v "S_JUMP") ∧
      ((jump v st).1 = false → (jump v st).2 = none) := by
  intro v st
  refine ⟨?_, ?_, ?_⟩
  · intro hdisj
    unfold jump
    rcases hdisj with hs | hair
    · simp [hs]
    · cases hsw : isStateSwitchAllowed v <;> simp [hsw, hair]
  · intro hs hair
    unfold jump
    simp [hs, hair]
  · intro h
    cases hsw : isStateSwitchAllowed v with
    | false =>
      unfold jump
      simp [hsw]
    | true =>
      cases hair : st.isInAir with
      | false =>
        have hj : jump v st = tryPlayTransitionAnimationTo v "S_JUMP" := by
          unfold jump
          simp [hsw, hair]
        rw [hj] at h ⊢
        exact tryPlayTransitionAnimationTo_false_none v _ h
      | true =>
        unfold jump
        simp [hsw, hair]

/-- Witness for C8: an airborne rejection and a grounded attempt. -/
theorem jump_gate_witness :
    jump visBase stAirborne = (false, none) ∧
    jump visBase st0 = tryPlayTransitionAnimationTo visBase "S_JUMP" :=
  ⟨(jump_gate visBase stAirborne).1 (Or.inr rfl),
   (jump_gate visBase st0).2.1 rfl rfl⟩

/-- C9 counterexample: with no dedicated backward state clip the
back-jump fallback can still fail (here: no visual assigned), so the
operation does not always return success, refuting the claim as
stated. -/
theorem goBackward_fallback_can_fail :
    doesStateExist visBase st0 "BL" = false ∧
    goBackward visBase st0 = (false, none) := by
  refine ⟨rfl, rfl⟩

/-- C9 (amended): when no dedicated backward state clip exists for the
current modes, goBackward is rejected if a state switch is disallowed,
and otherwise returns the result of attempting the one-shot T_JUMPB
back-jump transition, succeeding exactly when that attempt succeeds. -/
theorem goBackward_fallback :
    ∀ (v : Visual) (st : CharacterState),
      doesStateExist v st "BL" = false →
      ((isStateSwitchAllowed v = false → goBackward v st = (false, none)) ∧
       (isStateSwitchAllowed v = true →
        goBackward v st = tryPlayTransitionAnimationTo v "T_JUMPB")) := by
  intro v st hbl
  constructor
  · intro hsw
    unfold goBackward
    simp [hbl, hsw]
  · intro hsw
    unfold goBackward
    simp [hbl, hsw]

/-- A visual whose only clip is the back-jump transition. -/
def visBL : Visual :=
  { visBase with
    hasVisual := true
    findAnimationClip := fun s => if s == "T_JUMPB" then some 5 else none }

/-- Witness for C9: the fallback is taken and succeeds, playing the
back-jump clip. -/
theorem goBackward_fallback_witness :
    goBackward visBL st0 = tryPlayTransitionAnimationTo visBL "T_JUMPB" ∧
    tryPlayTransitionAnimationTo visBL "T_JUMPB" = (true, some 5) :=
  ⟨(goBackward_fallback visBL st0 rfl).2 rfl, rfl⟩

/-- C10: a transition request whose finally resolved target clip is the
clip of the currently playing animation, or a clip the port reports as
already being played, returns success without issuing any play command.
The port-consistency hypothesis states that the clip of the currently
playing animation name is reported as playing. -/
theorem tryPlayTransition_idempotent :
    ∀ (v : Visual) (anim : String) (c : Nat),
      v.hasVisual = true →
      (∀ d, v.findAnimationClip v.playingAnimationName = some d →
        v.isAnimationPlaying d = true) →
      resolvedTargetClip v anim = some c →
      (v.findAnimationClip v.playingAnimationName = some c ∨
        v.isAnimationPlaying c = true) →
      tryPlayTransitionAnimationTo v anim = (true, none) := by
  intro v anim c hv hcons hres hplay
  unfold tryPlayTransitionAnimationTo
  simp only [hv, Bool.not_true, Bool.false_eq_true, if_false]
  by_cases heq : v.findAnimationClip (v.findAnimationToTransitionTo anim) =
      v.findAnimationClip v.playingAnimationName
  · rw [if_pos heq]
  · rw [if_neg heq]
    unfold resolvedTargetClip at hres
    by_cases hfb : ((v.findAnimationClip
        (v.findAnimationToTransitionTo anim)).isNone && isStanding v) = true
    · rw [if_pos hfb] at hres ⊢
      rw [hres]
      have hplayc : v.isAnimationPlaying c = true := by
        rcases hplay with h1 | h2
        · exact hcons c h1
        · exact h2
      simp [hplayc]
    · rw [if_neg hfb] at hres ⊢
      rw [hres]
      have hplayc : v.isAnimationPlaying c = true := by
        rcases hplay with h1 | h2
        · exact absurd (hres.trans h1.symm) heq
        · exact h2
      simp [hplayc]

/-- A visual playing the standing idle clip S_RUN, toward which every
transition resolves. -/
def visPlaying : Visual :=
  { visBase with
    hasVisual := true
    playingAnimationName := "S_RUN"
    findAnimationClip := fun s => if s == "S_RUN" then some 1 else none
    findAnimationToTransitionTo := fun _ => "S_RUN"
    isAnimationPlaying := fun c => c == 1 }

/-- Witness for C10: repeating a request whose target clip is already
playing is a success with no play command. -/
theorem tryPlayTransition_idempotent_witness :
    tryPlayTransitionAnimationTo visPlaying "S_WALK" = (true, none) :=
  tryPlayTransition_idempotent visPlaying "S_WALK" 1 rfl
    (by
      intro d hd
      have hd1 : d = 1 := by
        have : (some 1 : Option Nat) = some d := by
          simpa [visPlaying, visBase] using hd
        exact (Option.some.injEq _ _).mp this.symm ▸ rfl
      rw [hd1]
      rfl)
    rfl (Or.inl rfl)

/-- A name lookup either misses, leaving the world untouched, or
produces some object. -/
lemma findObjectByName_cases (w : GameWorld) (name : String) :
    findObjectByName w name = (none, w) ∨
    ∃ so, (findObjectByName w name).1 = some so := by
  unfold findObjectByName
  dsimp only
  cases hl : lookupAssoc w.cache name with
  | none =>
    cases hc : w.findChild name with
    | none => exact Or.inl rfl
    | some so => exact Or.inr ⟨so, rfl⟩
  | some hob =>
    cases hd : hob.isDestroyed with
    | false => exact Or.inr ⟨hob, by simp [hd]⟩
    | true =>
      cases hc : w.findChild name with
      | none => exact Or.inl (by simp [hd])
      | some so => exact Or.inr ⟨so, by simp [hd]⟩

/-- A name lookup that misses leaves the world (cache included)
unchanged. -/
lemma findObjectByName_none_world (w : GameWorld) (name : String)
    (h : (findObjectByName w name).1 = none) :
    (findObjectByName w name).2 = w := by
  rcases findObjectByName_cases w name with hc | ⟨so, hso⟩
  · rw [hc]
  · rw [hso] at h
    simp at h

/-- C4: a teleport whose name lookup misses leaves the character state
(position and orientation included) unchanged and raises nothing; a
teleport whose lookup hits sets the position to the target position and
the forward vector to the target forward with its vertical component
zeroed and then normalized by the engine vector math. -/
theorem teleport_miss_noop_hit_sets :
    ∀ (vecNormalize : Vec3 → Vec3) (w : GameWorld) (st : CharacterState)
      (name : String),
      ((findObjectByName w name).1 = none →
        teleport vecNormalize w st name = Except.ok (w, st)) ∧
      (∀ so, (findObjectByName w name).1 = some so →
        teleport vecNormalize w st name =
          Except.ok ((findObjectByName w name).2,
            { st with
                position := so.pos,
                forwardVec :=
                  vecNormalize (Vec3.mk so.forward.x 0 so.forward.z) })) := by
  intro nrm w st name
  constructor
  · intro h
    have h2 := findObjectByName_none_world w name h
    unfold teleport
    rcases hfo : findObjectByName w name with ⟨o, w2⟩
    rw [hfo] at h h2
    simp only at h h2
    subst h
    subst h2
    rfl
  · intro so h
    unfold teleport
    rcases hfo : findObjectByName w name with ⟨o, w2⟩
    rw [hfo] at h
    simp only at h
    subst h
    rfl

/-- A live waypoint under the name WP1, cached in the world. -/
def objWP : WorldObject :=
  { isDestroyed := false, pos := ⟨1, 2, 3⟩, forward := ⟨0, 3, 4⟩ }

/-- A world whose cache holds WP1 and whose scene graph is empty. -/
def worldHit : GameWorld :=
  { cache := [("WP1", objWP)], findChild := fun _ => none }

/-- A world with an empty cache and an empty scene graph. -/
def worldMiss : GameWorld := { cache := [], findChild := fun _ => none }

/-- Witness for C4: a missing waypoint is a strict no-op, a cached live
waypoint teleports the character onto it. -/
theorem teleport_miss_noop_hit_sets_witness :
    teleport (fun v => v) worldMiss st0 "NOWHERE" =
      Except.ok (worldMiss, st0) ∧
    teleport (fun v => v) worldHit st0 "WP1" =
      Except.ok ((findObjectByName worldHit "WP1").2,
        { st0 with
            position := objWP.pos,
            forwardVec := Vec3.mk objWP.forward.x 0 objWP.forward.z }) :=
  ⟨(teleport_miss_noop_hit_sets (fun v => v) worldMiss st0 "NOWHERE").1 rfl,
   (teleport_miss_noop_hit_sets (fun v => v) worldHit st0 "WP1").2 objWP rfl⟩

end REGoth
